import Mathlib

/-!
Shallow embedding of `notify.py` (ganler/notify-free-gpu): a Telegram bot that
polls GPU occupancy, broadcasts changes to a whitelist, and lets whitelisted
users occupy/release GPU memory.

Conventions of the embedding:
* Python ints are `ℤ` (or `ℕ` where the source value is provably nonnegative,
  e.g. byte counts from the driver); Python float arithmetic on these values
  is modelled with exact `ℚ` arithmetic (every division the source performs is
  by a power of two on integers far below 2^53, where binary floating point is
  exact, except the 0.95/0.8 scaling noted at its definition).
* Python exceptions are modelled with explicit error values: a handler result
  carries `exc : Option PyExc`, `none` meaning the handler returned normally.
* `dict` is an association list with unique keys, with lookup / insert /
  delete mirroring Python dict operations.
* External effects (Telegram sends, CUDA allocations, NVML queries) enter as
  explicit parameters: an outcome function for message delivery, a success
  predicate for allocation, and snapshot data for device queries.
-/

/-- Python `round` on the argument of `pbar`: round-half-to-even
(banker's rounding), as `round` behaves on Python floats/ints. -/
def pyRound (q : ℚ) : ℤ :=
  if q - ⌊q⌋ < 1/2 then ⌊q⌋
  else if 1/2 < q - ⌊q⌋ then ⌊q⌋ + 1
  else if ⌊q⌋ % 2 = 0 then ⌊q⌋ else ⌊q⌋ + 1

/-- `pbar(current, maximum, size)` from `notify.py`: starts with a backtick and
a bar, appends a hash for each element of `range(sep + 1)`, a space for each
element of `range(sep + 1, size)`, and closes with a bar and a backtick, where
`sep = round(current / maximum * size)`.  `range(a, b)` has `max 0 (b - a)`
elements, which the `Int.toNat` coercions reproduce. -/
def pbar (current maximum size : ℕ) : String :=
  ⟨"`|".data
    ++ List.replicate ((pyRound ((current : ℚ) / (maximum : ℚ) * (size : ℚ))) + 1).toNat '#'
    ++ List.replicate ((size : ℤ) - ((pyRound ((current : ℚ) / (maximum : ℚ) * (size : ℚ))) + 1)).toNat ' '
    ++ "|`".data⟩

/-- Number of filled (`#`) segments in a rendered bar. -/
def filledSegments (s : String) : ℕ := s.data.count '#'

/-- Memory snapshot of one device, as returned by
`pynvml.nvmlDeviceGetMemoryInfo` (byte counts). -/
structure MemoryInfo where
  used : ℕ
  total : ℕ
  free : ℕ
deriving Repr, DecidableEq

/-- Per-poll snapshot of one device: its memory info and the usernames of the
compute processes running on it (`get_user_info` projected to usernames, which
is all `_query_once` uses). -/
structure DeviceSnapshot where
  mem : MemoryInfo
  users : List String
deriving Repr, DecidableEq

/-- The per-user decoration table of `_query_once`: known usernames get a
distinguishing emoji, everyone else a default one. -/
def decorate (u : String) : String :=
  if u = "chunqiu2" then u ++ "🐍"
  else if u = "ywei40" then u ++ "💩"
  else if u = "yifeng6" then u ++ "🐝"
  else if u = "shizhuo2" then u ++ "🎡"
  else if u = "yinlind2" then u ++ "🌲"
  else if u = "cy54" then u ++ "🎣"
  else u ++ "💸"

/-- The threshold test of `_query_once`: `used_gb = info.used / 1024 ** 3`
(exact for byte counts below 2^53), `thresh_gb = 1`, occupied iff
`used_gb > thresh_gb`. -/
def gpuOccupied (info : MemoryInfo) : Bool :=
  decide ((info.used : ℚ) / 1024 ^ 3 > 1)

/-- The occupancy label `_query_once` appends to `new_states` for one device. -/
def deviceState (d : DeviceSnapshot) : String :=
  if gpuOccupied d.mem then
    "🤡OCCUPIED by " ++ String.intercalate ", " (d.users.map decorate)
  else
    "🚀AVAILABLE"

/-- The `* GPU #i: state` bullet lines of the status message, starting the
numbering at `i`. -/
def statusLines (i : ℕ) : List String → String
  | [] => ""
  | s :: rest => "* GPU #" ++ toString i ++ ": " ++ s ++ "\n" ++ statusLines (i + 1) rest

/-- `NotifyBot._query_once`: maps every device handle to its occupancy label
and assembles the timestamped status message. -/
def queryOnce (devs : List DeviceSnapshot) (timestamp : String) :
    List String × String :=
  let new_states := devs.map deviceState
  (new_states,
   "# New GPU Status at " ++ timestamp ++ "\n" ++ statusLines 0 new_states)

/-- Outcome of one `bot.send_message` call to one chat id. -/
inductive SendOutcome where
  | ok
  | unauthorized
deriving Repr, DecidableEq

/-- Exceptions of the Telegram transport relevant to the source: the only one
its broadcast loops catch is `telegram.error.Unauthorized`. -/
inductive TgError where
  | Unauthorized
deriving Repr, DecidableEq

/-- `self._updater.bot.send_message(chat_id, msg)`: delivers, or raises
`telegram.error.Unauthorized`, according to the transport outcome function. -/
def sendMessage (deliver : ℤ → SendOutcome) (chatId : ℤ) : Except TgError Unit :=
  match deliver chatId with
  | .ok => .ok ()
  | .unauthorized => .error .Unauthorized

/-- Result of one `for chat_id in self._whitelist: try: send ... except
Unauthorized: print` loop. -/
structure BroadcastResult where
  /-- chat ids a send was attempted for, in order. -/
  attempted : List ℤ
  /-- (chat id, message) pairs actually delivered. -/
  delivered : List (ℤ × String)
  /-- log lines printed for skipped recipients. -/
  logs : List String
deriving Repr, DecidableEq

/-- The broadcast loop of `_poll_gpu` (it appears twice there, once on the
error path and once on the state-change path, with the same structure): for
each whitelisted chat id try to send, catching `Unauthorized`, logging it and
moving on; any other transport exception would escape the loop. -/
def broadcastLoop (whitelist : List ℤ) (deliver : ℤ → SendOutcome)
    (msg : String) : Except TgError BroadcastResult :=
  match whitelist with
  | [] => .ok ⟨[], [], []⟩
  | chatId :: rest =>
    let head : BroadcastResult :=
      match sendMessage deliver chatId with
      | .ok _ => ⟨[chatId], [(chatId, msg)], []⟩
      | .error .Unauthorized => ⟨[chatId], [], ["Unauthorized for " ++ toString chatId]⟩
    match broadcastLoop rest deliver msg with
    | .ok tail => .ok ⟨head.attempted ++ tail.attempted,
                       head.delivered ++ tail.delivered,
                       head.logs ++ tail.logs⟩
    | .error e => .error e

/-- What one iteration of the `while True` body of `_poll_gpu` did. -/
structure CycleResult where
  /-- the broadcast performed this cycle, if any. -/
  broadcast : Option BroadcastResult
  /-- lines printed this cycle. -/
  logs : List String
  /-- value of `old_states` after the iteration. -/
  oldStates : List (Option String)
  /-- exception escaping the iteration (which would kill the loop). -/
  exc : Option TgError
deriving Repr, DecidableEq

/-- One iteration of the `while True` loop of `NotifyBot._poll_gpu`, after the
sleep.  `query` is the outcome of `self._query_once(handles)`: device
snapshots on success, the `format_exc()` text if it raised.  `old_states`
starts life as `[None] * deviceCount` and afterwards holds the previous
cycle's labels; the comparison `new_states != old_states` is list inequality,
which the `Option String` embedding mirrors (`none` is the sentinel `None`). -/
def pollCycle (whitelist : List ℤ) (deliver : ℤ → SendOutcome)
    (query : Except String (List DeviceSnapshot)) (timestamp : String)
    (oldStates : List (Option String)) : CycleResult :=
  match query with
  | .error msg =>
    match broadcastLoop whitelist deliver msg with
    | .ok b => ⟨some b, msg :: b.logs, oldStates, none⟩
    | .error e => ⟨none, [msg], oldStates, some e⟩
  | .ok devs =>
    let qr := queryOnce devs timestamp
    if qr.1.map some ≠ oldStates then
      match broadcastLoop whitelist deliver qr.2 with
      | .ok b => ⟨some b, b.logs, qr.1.map some, none⟩
      | .error e => ⟨none, [], oldStates, some e⟩
    else
      ⟨none, [], oldStates, none⟩

/-- Exceptions a command handler of the source can raise past its own code
(the Telegram dispatcher above it is outside the embedding). -/
inductive PyExc where
  /-- `ValueError` from `int(token)` on a non-numeric token. -/
  | ValueErrorInt
  /-- `ValueError: Invalid format specifier` from evaluating an f-string whose
  format spec is the malformed `f.1`. -/
  | ValueErrorFmt
deriving Repr, DecidableEq

/-- Python `int(s)` on a string: strip surrounding whitespace, accept an
optional sign followed by a nonempty digit string, raise `ValueError`
otherwise (`none`).  (Underscore digit grouping, accepted by Python, is not
modelled; no claim involves it.) -/
def pyInt (s : String) : Option ℤ :=
  let t := (s.data.dropWhile Char.isWhitespace).reverse.dropWhile Char.isWhitespace |>.reverse
  let core : Option (List Char) :=
    match t with
    | '-' :: ds => some ds
    | '+' :: ds => some ds
    | ds => some ds
  match core with
  | some ds =>
    if ds ≠ [] ∧ ds.all Char.isDigit then
      let mag : ℕ := ds.foldl (fun acc c => acc * 10 + (c.toNat - 48)) 0
      match t with
      | '-' :: _ => some (-(mag : ℤ))
      | _ => some (mag : ℤ)
    else none
  | none => none

/-- Python `dict` lookup `d.get(k)` on an association list with unique keys. -/
def dictLookup (d : List (ℤ × ℕ)) (k : ℤ) : Option ℕ :=
  match d with
  | [] => none
  | (k', v) :: rest => if k' = k then some v else dictLookup rest k

/-- Python `d[k] = v`: overwrite the entry if the key is present, append it
otherwise. -/
def dictInsert (d : List (ℤ × ℕ)) (k : ℤ) (v : ℕ) : List (ℤ × ℕ) :=
  match d with
  | [] => [(k, v)]
  | (k', v') :: rest => if k' = k then (k, v) :: rest else (k', v') :: dictInsert rest k v

/-- Python `del d[k]` (on a key-unique list; removes the first occurrence). -/
def dictErase (d : List (ℤ × ℕ)) (k : ℤ) : List (ℤ × ℕ) :=
  match d with
  | [] => []
  | (k', v') :: rest => if k' = k then rest else (k', v') :: dictErase rest k

/-- The fixed rejection message every restricted handler sends to a caller
whose id is not in the whitelist (also `_register`'s non-member reply). -/
def rejectionMsg (userId : ℤ) : String :=
  "You are not yet on the whitelist. Add " ++ toString userId
    ++ " to your config to receive notifications from me"

/-- Reply for a device id outside `[0, deviceCount)`. -/
def invalidGpuMsg (deviceCount : ℕ) : String :=
  "Invalid GPU ID. Must be between 0 and " ++ toString ((deviceCount : ℤ) - 1)

/-- Usage reply of `/occ`. -/
def occUsageMsg : String := "Usage: /occ <gpu_id>"

/-- Usage reply of `/rel` (also sent — verbatim, a copy-paste in the source —
by `_set_interval` on wrong arity). -/
def relUsageMsg : String :=
  "Usage: /rel <gpu_id> to release <gpu_id> or simply /rel to release all"

/-- The reply expression of the success branch of `_occupy`:
`f"Allocated {to_alloc / (1024**3):f.1}GB on GPU {gid}"`.  The format
specifier `f.1` is malformed (in the format mini-language the presentation
type `f` must be the final character, and `.1` trails it), so evaluating the
f-string raises `ValueError` before any text is produced or sent. -/
def allocatedReply (toAlloc : ℕ) (gid : ℤ) : Except PyExc String :=
  .error .ValueErrorFmt

/-- The reply expression of the failure branch of `_occupy`:
`f"Could not allocate {to_alloc / (1024**3):f.1}GB on GPU {gid}. Trying again
with 80% of the memory"` — same malformed `f.1` specifier, same `ValueError`. -/
def couldNotAllocateReply (toAlloc : ℕ) (gid : ℤ) : Except PyExc String :=
  .error .ValueErrorFmt

/-- Result of a run of the `_occupy` handler. -/
structure OccupyResult where
  /-- texts passed to `update.message.reply_text`, in order. -/
  replies : List String
  /-- `self.cuda_buffers` afterwards (device id ↦ bytes held). -/
  buffers : List (ℤ × ℕ)
  /-- byte sizes passed to `cuda.device_array`, in order of attempts. -/
  attempts : List ℕ
  /-- exception escaping the handler. -/
  exc : Option PyExc
deriving Repr, DecidableEq

/-- The `for _ in range(3)` allocation loop of `_occupy`.  `alloc` says
whether `cuda.device_array((toAlloc,), dtype="byte")` succeeds for a given
size (failure = `CudaAPIError`, which the source catches).  On success the
handle is stored first, then the success reply is formatted; on failure the
retry reply is formatted and the target is shrunk to `int(to_alloc * 0.8)`
(exact-rational model of the float scaling).  Either reply raises
`ValueError` (see `allocatedReply`), which escapes the loop. -/
def occupyAttempts (fuel : ℕ) (toAlloc : ℕ) (gid : ℤ)
    (buffers : List (ℤ × ℕ)) (alloc : ℕ → Bool) : OccupyResult :=
  match fuel with
  | 0 => ⟨[], buffers, [], none⟩
  | fuel' + 1 =>
    if alloc toAlloc then
      let buffers' := dictInsert buffers gid toAlloc
      match allocatedReply toAlloc gid with
      | .ok r => ⟨[r], buffers', [toAlloc], none⟩
      | .error e => ⟨[], buffers', [toAlloc], some e⟩
    else
      match couldNotAllocateReply toAlloc gid with
      | .ok r =>
        let rest := occupyAttempts fuel' (toAlloc * 4 / 5) gid buffers alloc
        ⟨r :: rest.replies, rest.buffers, toAlloc :: rest.attempts, rest.exc⟩
      | .error e => ⟨[], buffers, [toAlloc], some e⟩

/-- `NotifyBot._occupy`: whitelist check, arity check, `int` parse, range
check, then `to_alloc = int(free * 0.95)` (exact-rational model of the float
scaling) and the three-attempt allocation loop. -/
def occupyHandler (whitelist : List ℤ) (userId : ℤ) (args : List String)
    (buffers : List (ℤ × ℕ)) (deviceCount : ℕ) (freeBytes : ℕ)
    (alloc : ℕ → Bool) : OccupyResult :=
  if userId ∉ whitelist then
    ⟨[rejectionMsg userId], buffers, [], none⟩
  else if args.length ≠ 1 then
    ⟨[occUsageMsg], buffers, [], none⟩
  else
    match pyInt (args.headD "") with
    | none => ⟨[], buffers, [], some .ValueErrorInt⟩
    | some gid =>
      if gid < 0 ∨ (deviceCount : ℤ) ≤ gid then
        ⟨[invalidGpuMsg deviceCount], buffers, [], none⟩
      else
        occupyAttempts 3 (freeBytes * 95 / 100) gid buffers alloc

/-- Result of a run of the `_release` handler. -/
structure ReleaseResult where
  replies : List String
  buffers : List (ℤ × ℕ)
  exc : Option PyExc
deriving Repr, DecidableEq

/-- The `for gid in to_release` loop of `_release`: per id, reply
"not occupied" if the id holds no buffer, else delete the entry, reset the
device and reply "Released". -/
def releaseLoop (toRelease : List ℤ) (buffers : List (ℤ × ℕ)) :
    List String × List (ℤ × ℕ) :=
  match toRelease with
  | [] => ([], buffers)
  | gid :: rest =>
    if dictLookup buffers gid = none then
      let r := releaseLoop rest buffers
      (("GPU " ++ toString gid ++ " is not occupied") :: r.1, r.2)
    else
      let r := releaseLoop rest (dictErase buffers gid)
      (("Released GPU " ++ toString gid) :: r.1, r.2)

/-- `NotifyBot._release`: whitelist check, arity check (`> 1` rejected, `0`
means all device ids), `int` parse, then the range check — whose invalid
branch replies but, unlike `_occupy`, does not return — and the release
loop. -/
def releaseHandler (whitelist : List ℤ) (userId : ℤ) (args : List String)
    (buffers : List (ℤ × ℕ)) (deviceCount : ℕ) : ReleaseResult :=
  if userId ∉ whitelist then
    ⟨[rejectionMsg userId], buffers, none⟩
  else if args.length > 1 then
    ⟨[relUsageMsg], buffers, none⟩
  else if args.length = 0 then
    let r := releaseLoop ((List.range deviceCount).map Int.ofNat) buffers
    ⟨r.1, r.2, none⟩
  else
    match pyInt (args.headD "") with
    | none => ⟨[], buffers, some .ValueErrorInt⟩
    | some gid =>
      let pre := if gid < 0 ∨ (deviceCount : ℤ) ≤ gid then [invalidGpuMsg deviceCount] else []
      let r := releaseLoop [gid] buffers
      ⟨pre ++ r.1, r.2, none⟩

/-- Result of a run of the `_set_interval` handler. -/
structure IntervalResult where
  replies : List String
  /-- `self.interval` afterwards. -/
  interval : ℤ
  exc : Option PyExc
deriving Repr, DecidableEq

/-- `NotifyBot._set_interval`: whitelist check, arity check (replying the
`/rel` usage text, as the source does), `int` parse, range check
`1 ≤ n ≤ 60 * 60`, then the interval is stored and confirmed. -/
def setIntervalHandler (whitelist : List ℤ) (userId : ℤ) (args : List String)
    (interval : ℤ) : IntervalResult :=
  if userId ∉ whitelist then
    ⟨[rejectionMsg userId], interval, none⟩
  else if args.length ≠ 1 then
    ⟨[relUsageMsg], interval, none⟩
  else
    match pyInt (args.headD "") with
    | none => ⟨[], interval, some .ValueErrorInt⟩
    | some n =>
      if n < 1 ∨ n > 60 * 60 then
        ⟨["Interval must be between 1s and 3600s"], interval, none⟩
      else
        ⟨["Interval set to " ++ toString n ++ "s"], n, none⟩

theorem gpuOccupied_iff (info : MemoryInfo) :
    gpuOccupied info = true ↔ 2 ^ 30 < info.used := by
  have h : (0 : ℚ) < 1024 ^ 3 := by norm_num
  rw [gpuOccupied, decide_eq_true_eq, gt_iff_lt, lt_div_iff₀ h]
  rw [show ((1 : ℚ) * 1024 ^ 3 = ((2 ^ 30 : ℕ) : ℚ)) by norm_num]
  exact Nat.cast_lt

example : gpuOccupied ⟨2 ^ 30, 2 ^ 34, 2 ^ 33⟩ = false := by
  rw [Bool.eq_false_iff]
  intro h
  have := (gpuOccupied_iff _).mp h
  simp at this

example : gpuOccupied ⟨2 ^ 30 + 1, 2 ^ 34, 2 ^ 33⟩ = true :=
  (gpuOccupied_iff _).mpr (by norm_num)

example : pyInt "0" = some 0 := by decide
example : pyInt "17" = some 17 := by decide
example : pyInt "-3" = some (-3) := by decide
example : pyInt "abc" = none := by decide
example : pyInt "1.5" = none := by decide

/-- `broadcastLoop` never raises: every recipient is attempted, exactly the
recipients whose delivery outcome is `ok` receive the message, and each
skipped recipient leaves one log line. -/
theorem broadcastLoop_eq (whitelist : List ℤ) (deliver : ℤ → SendOutcome)
    (msg : String) :
    broadcastLoop whitelist deliver msg =
      .ok ⟨whitelist,
           (whitelist.filter (fun c => deliver c = SendOutcome.ok)).map (fun c => (c, msg)),
           (whitelist.filter (fun c => ¬ deliver c = SendOutcome.ok)).map
             (fun c => "Unauthorized for " ++ toString c)⟩ := by
  induction whitelist with
  | nil => rfl
  | cons chatId rest ih =>
    rw [broadcastLoop, ih, sendMessage]
    cases h : deliver chatId with
    | ok => simp [List.filter_cons, h]
    | unauthorized => simp [List.filter_cons, h]

/-- The two label shapes of `_query_once` are distinct strings, whatever the
user list renders to. -/
theorem occupied_ne_available (s : String) :
    "🤡OCCUPIED by " ++ s ≠ "🚀AVAILABLE" := by
  intro h
  have h1 : ("🤡OCCUPIED by " ++ s).data.head? = some '🤡' := by
    rw [String.data_append]; rfl
  rw [h] at h1
  exact absurd (Option.some.inj h1) (by decide)

/-- C3: the computed occupancy label of a device snapshot is the OCCUPIED
label exactly when used memory strictly exceeds 1 GiB = 2^30 bytes, and the
AVAILABLE label exactly when it does not — whatever the process list is: with
`used = 2^30` exactly the label is AVAILABLE, with `used = 2^30 + 1` it is
OCCUPIED. -/
theorem occupancy_threshold (info : MemoryInfo) (users : List String) :
    (deviceState ⟨info, users⟩ =
        "🤡OCCUPIED by " ++ String.intercalate ", " (users.map decorate) ↔
      2 ^ 30 < info.used) ∧
    (deviceState ⟨info, users⟩ = "🚀AVAILABLE" ↔ info.used ≤ 2 ^ 30) := by
  by_cases hocc : gpuOccupied info = true
  · have hlt := (gpuOccupied_iff info).mp hocc
    have hds : deviceState ⟨info, users⟩ =
        "🤡OCCUPIED by " ++ String.intercalate ", " (users.map decorate) := by
      simp [deviceState, hocc]
    refine ⟨⟨fun _ => hlt, fun _ => hds⟩, ⟨fun h => ?_, fun h => by omega⟩⟩
    rw [hds] at h
    exact absurd h (occupied_ne_available _)
  · have hle : info.used ≤ 2 ^ 30 := by
      by_contra hgt
      exact hocc ((gpuOccupied_iff info).mpr (by omega))
    have hb : gpuOccupied info = false := by simpa using hocc
    have hds : deviceState ⟨info, users⟩ = "🚀AVAILABLE" := by
      simp [deviceState, hb]
    refine ⟨⟨fun h => ?_, fun h => by omega⟩, ⟨fun _ => hle, fun _ => hds⟩⟩
    rw [hds] at h
    exact absurd h.symm (occupied_ne_available _)

/-- C9: the broadcast loop attempts delivery to the whole whitelist; a
per-recipient `Unauthorized` failure is caught, logged and skipped, so every
recipient with a working delivery receives the message and the loop raises
nothing. -/
theorem broadcast_resilient (whitelist : List ℤ) (deliver : ℤ → SendOutcome)
    (msg : String) :
    ∃ b : BroadcastResult,
      broadcastLoop whitelist deliver msg = .ok b ∧
      b.attempted = whitelist ∧
      b.delivered = (whitelist.filter (fun c => deliver c = SendOutcome.ok)).map
          (fun c => (c, msg)) ∧
      b.logs = (whitelist.filter (fun c => ¬ deliver c = SendOutcome.ok)).map
          (fun c => "Unauthorized for " ++ toString c) :=
  ⟨_, broadcastLoop_eq whitelist deliver msg, rfl, rfl, rfl⟩

/-- C2: a poll cycle whose device query raises logs the error text, attempts
to send it to every whitelist entry, leaves the stored previous-state vector
unchanged and lets no exception escape (so the loop goes back to sleep). -/
theorem poll_error_cycle (whitelist : List ℤ) (deliver : ℤ → SendOutcome)
    (errText timestamp : String) (oldStates : List (Option String)) :
    (pollCycle whitelist deliver (.error errText) timestamp oldStates).oldStates
        = oldStates ∧
    (pollCycle whitelist deliver (.error errText) timestamp oldStates).exc = none ∧
    (pollCycle whitelist deliver (.error errText) timestamp oldStates).logs.head?
        = some errText ∧
    ∃ b, (pollCycle whitelist deliver (.error errText) timestamp oldStates).broadcast
        = some b ∧
      b.attempted = whitelist ∧
      b.delivered = (whitelist.filter (fun c => deliver c = SendOutcome.ok)).map
          (fun c => (c, errText)) := by
  rw [pollCycle, broadcastLoop_eq]
  exact ⟨rfl, rfl, rfl, _, rfl, rfl, rfl⟩

/-- C7: `/occ` invoked by a caller whose id is not whitelisted replies the
fixed rejection message naming that id, makes no allocation attempt, and
leaves the reservation map unchanged. -/
theorem occupy_rejects_non_whitelisted (whitelist : List ℤ) (userId : ℤ)
    (args : List String) (buffers : List (ℤ × ℕ)) (deviceCount freeBytes : ℕ)
    (alloc : ℕ → Bool) (h : userId ∉ whitelist) :
    occupyHandler whitelist userId args buffers deviceCount freeBytes alloc =
      ⟨[rejectionMsg userId], buffers, [], none⟩ := by
  rw [occupyHandler, if_pos h]

/-- Witness for C7 at a concrete input: caller 2 against whitelist [1]. -/
theorem occupy_rejects_non_whitelisted_witness :
    (2 : ℤ) ∉ ([1] : List ℤ) ∧
    occupyHandler [1] 2 ["0"] [] 1 100 (fun _ => true) =
      ⟨["You are not yet on the whitelist. Add 2 to your config to receive notifications from me"],
       [], [], none⟩ := by
  refine ⟨by decide, ?_⟩
  rw [occupy_rejects_non_whitelisted [1] 2 ["0"] [] 1 100 (fun _ => true) (by decide)]
  decide

theorem dictLookup_insert_self (d : List (ℤ × ℕ)) (k : ℤ) (v : ℕ) :
    dictLookup (dictInsert d k v) k = some v := by
  induction d with
  | nil => simp [dictInsert, dictLookup]
  | cons hd tl ih =>
    obtain ⟨k', v'⟩ := hd
    by_cases hk : k' = k
    · rw [dictInsert, if_pos hk, dictLookup, if_pos rfl]
    · rw [dictInsert, if_neg hk, dictLookup, if_neg hk, ih]

theorem dictErase_insert (d : List (ℤ × ℕ)) (k : ℤ) (v : ℕ)
    (h : dictLookup d k = none) : dictErase (dictInsert d k v) k = d := by
  induction d with
  | nil => simp [dictInsert, dictErase]
  | cons hd tl ih =>
    obtain ⟨k', v'⟩ := hd
    rw [dictLookup] at h
    by_cases hk : k' = k
    · rw [if_pos hk] at h; cases h
    · rw [if_neg hk] at h
      rw [dictInsert, if_neg hk, dictErase, if_neg hk, ih h]

/-- `_occupy` on a whitelisted caller, a single in-range id and an allocator
that accepts the first target: the handle is stored (overwriting any prior
entry for the id), one allocation of `int(free * 0.95)` bytes is made, and
the handler then dies formatting its success reply. -/
theorem occupyHandler_success (whitelist : List ℤ) (userId : ℤ) (a : String)
    (gid : ℤ) (buffers : List (ℤ × ℕ)) (deviceCount freeBytes : ℕ)
    (alloc : ℕ → Bool) (hu : userId ∈ whitelist) (hp : pyInt a = some gid)
    (hr : ¬(gid < 0 ∨ (deviceCount : ℤ) ≤ gid))
    (ha : alloc (freeBytes * 95 / 100) = true) :
    occupyHandler whitelist userId [a] buffers deviceCount freeBytes alloc =
      ⟨[], dictInsert buffers gid (freeBytes * 95 / 100),
       [freeBytes * 95 / 100], some .ValueErrorFmt⟩ := by
  rw [occupyHandler, if_neg (by simpa using hu), if_neg (by simp)]
  simp only [List.headD_cons, hp]
  rw [if_neg hr, occupyAttempts, if_pos ha]
  rfl

/-- `_release` on a whitelisted caller and a single in-range id: reply and
buffer update as dictated by whether the id currently holds a buffer. -/
theorem releaseHandler_single (whitelist : List ℤ) (userId : ℤ) (a : String)
    (gid : ℤ) (buffers : List (ℤ × ℕ)) (deviceCount : ℕ)
    (hu : userId ∈ whitelist) (hp : pyInt a = some gid)
    (hr : ¬(gid < 0 ∨ (deviceCount : ℤ) ≤ gid)) :
    releaseHandler whitelist userId [a] buffers deviceCount =
      if dictLookup buffers gid = none then
        ⟨["GPU " ++ toString gid ++ " is not occupied"], buffers, none⟩
      else
        ⟨["Released GPU " ++ toString gid], dictErase buffers gid, none⟩ := by
  rw [releaseHandler, if_neg (by simpa using hu), if_neg (by simp), if_neg (by simp)]
  simp only [List.headD_cons, hp]
  rw [if_neg hr, releaseLoop]
  by_cases hb : dictLookup buffers gid = none
  · rw [if_pos hb, if_pos hb]; rfl
  · rw [if_neg hb, if_neg hb]; rfl

/-- C6: releasing is idempotent per device id.  Releasing an id that holds no
buffer replies "not occupied" without error; after an `occupy` of the id and
one `release`, a second `release` again replies "not occupied"; in both cases
the reservation map afterwards has no entry for the id. -/
theorem release_idempotent (whitelist : List ℤ) (userId : ℤ) (a : String)
    (gid : ℤ) (deviceCount freeBytes : ℕ) (b0 : List (ℤ × ℕ))
    (alloc : ℕ → Bool) (hu : userId ∈ whitelist) (hp : pyInt a = some gid)
    (hr : ¬(gid < 0 ∨ (deviceCount : ℤ) ≤ gid))
    (hb : dictLookup b0 gid = none)
    (ha : alloc (freeBytes * 95 / 100) = true) :
    releaseHandler whitelist userId [a] b0 deviceCount =
      ⟨["GPU " ++ toString gid ++ " is not occupied"], b0, none⟩ ∧
    dictLookup (releaseHandler whitelist userId [a] b0 deviceCount).buffers gid
      = none ∧
    ((releaseHandler whitelist userId [a]
        (occupyHandler whitelist userId [a] b0 deviceCount freeBytes alloc).buffers
        deviceCount).replies = ["Released GPU " ++ toString gid] ∧
     (releaseHandler whitelist userId [a]
        (releaseHandler whitelist userId [a]
          (occupyHandler whitelist userId [a] b0 deviceCount freeBytes alloc).buffers
          deviceCount).buffers deviceCount) =
       ⟨["GPU " ++ toString gid ++ " is not occupied"], b0, none⟩ ∧
     dictLookup (releaseHandler whitelist userId [a]
        (releaseHandler whitelist userId [a]
          (occupyHandler whitelist userId [a] b0 deviceCount freeBytes alloc).buffers
          deviceCount).buffers deviceCount).buffers gid = none) := by
  have h1 : releaseHandler whitelist userId [a] b0 deviceCount =
      ⟨["GPU " ++ toString gid ++ " is not occupied"], b0, none⟩ := by
    rw [releaseHandler_single whitelist userId a gid b0 deviceCount hu hp hr, if_pos hb]
  have hocc := occupyHandler_success whitelist userId a gid b0 deviceCount
    freeBytes alloc hu hp hr ha
  have hfull : dictLookup (occupyHandler whitelist userId [a] b0 deviceCount
      freeBytes alloc).buffers gid = some (freeBytes * 95 / 100) := by
    rw [hocc]; exact dictLookup_insert_self b0 gid _
  have h2 : releaseHandler whitelist userId [a]
      (occupyHandler whitelist userId [a] b0 deviceCount freeBytes alloc).buffers
      deviceCount = ⟨["Released GPU " ++ toString gid], b0, none⟩ := by
    rw [releaseHandler_single whitelist userId a gid _ deviceCount hu hp hr,
        if_neg (by rw [hfull]; simp)]
    rw [hocc]
    rw [dictErase_insert b0 gid _ hb]
  refine ⟨h1, by rw [h1]; exact hb, by rw [h2], by rw [h2]; exact h1, by rw [h2, h1]; exact hb⟩

/-- Witness for C6 at concrete input: whitelist [1], caller 1, id 0 of 1
device, empty initial reservation map, allocator succeeding at once. -/
theorem release_idempotent_witness :
    releaseHandler [1] 1 ["0"] [] 1 = ⟨["GPU 0 is not occupied"], [], none⟩ ∧
    (releaseHandler [1] 1 ["0"]
        (occupyHandler [1] 1 ["0"] [] 1 1000 (fun _ => true)).buffers 1).replies
      = ["Released GPU 0"] ∧
    (releaseHandler [1] 1 ["0"]
        (releaseHandler [1] 1 ["0"]
          (occupyHandler [1] 1 ["0"] [] 1 1000 (fun _ => true)).buffers 1).buffers 1)
      = ⟨["GPU 0 is not occupied"], [], none⟩ := by
  obtain ⟨w1, _, w3, w4, _⟩ := release_idempotent [1] 1 "0" 0 1 1000 []
    (fun _ => true) (by decide) (by decide) (by decide) (by decide) (by decide)
  exact ⟨w1, w3, w4⟩

/-- C10: `/rel` with a single out-of-range id from a whitelisted caller
replies "Invalid GPU ID" but, lacking the early return `_occupy` has, then
still processes the id and additionally replies that it is not occupied,
leaving the reservation map unchanged. -/
theorem release_invalid_id_continues (whitelist : List ℤ) (userId : ℤ)
    (a : String) (gid : ℤ) (buffers : List (ℤ × ℕ)) (deviceCount : ℕ)
    (hu : userId ∈ whitelist) (hp : pyInt a = some gid)
    (hr : gid < 0 ∨ (deviceCount : ℤ) ≤ gid)
    (hb : dictLookup buffers gid = none) :
    releaseHandler whitelist userId [a] buffers deviceCount =
      ⟨[invalidGpuMsg deviceCount, "GPU " ++ toString gid ++ " is not occupied"],
       buffers, none⟩ := by
  rw [releaseHandler, if_neg (by simpa using hu), if_neg (by simp), if_neg (by simp)]
  simp only [List.headD_cons, hp]
  rw [if_pos hr, releaseLoop, if_pos hb, releaseLoop]
  rfl

/-- Witness for C10 at concrete input: 2 devices, `/rel 5`. -/
theorem release_invalid_id_continues_witness :
    releaseHandler [1] 1 ["5"] [] 2 =
      ⟨["Invalid GPU ID. Must be between 0 and 1", "GPU 5 is not occupied"],
       [], none⟩ := by
  rw [release_invalid_id_continues [1] 1 "5" 5 [] 2 (by decide) (by decide)
    (by decide) (by decide)]
  decide

/-- C8 (amended): wrong arity and out-of-range numeric arguments are
validated and yield a usage/range message with no side effect and no
exception; a non-numeric token where an integer is expected, however, is not
validated — `int()` raises a `ValueError` that escapes the handler (still
with no state change and no reply, but no usage message either). -/
theorem command_validation (whitelist : List ℤ) (userId : ℤ)
    (hu : userId ∈ whitelist) :
    (∀ (args : List String) (b : List (ℤ × ℕ)) (count free : ℕ)
       (alloc : ℕ → Bool), args.length ≠ 1 →
       occupyHandler whitelist userId args b count free alloc =
         ⟨[occUsageMsg], b, [], none⟩) ∧
    (∀ (args : List String) (iv : ℤ), args.length ≠ 1 →
       setIntervalHandler whitelist userId args iv = ⟨[relUsageMsg], iv, none⟩) ∧
    (∀ (a : String) (gid : ℤ) (b : List (ℤ × ℕ)) (count free : ℕ)
       (alloc : ℕ → Bool), pyInt a = some gid → gid < 0 ∨ (count : ℤ) ≤ gid →
       occupyHandler whitelist userId [a] b count free alloc =
         ⟨[invalidGpuMsg count], b, [], none⟩) ∧
    (∀ (a : String) (n : ℤ) (iv : ℤ), pyInt a = some n → n < 1 ∨ 60 * 60 < n →
       setIntervalHandler whitelist userId [a] iv =
         ⟨["Interval must be between 1s and 3600s"], iv, none⟩) ∧
    (∀ (a : String) (b : List (ℤ × ℕ)) (count free : ℕ) (alloc : ℕ → Bool),
       pyInt a = none →
       occupyHandler whitelist userId [a] b count free alloc =
         ⟨[], b, [], some .ValueErrorInt⟩) ∧
    (∀ (a : String) (iv : ℤ), pyInt a = none →
       setIntervalHandler whitelist userId [a] iv =
         ⟨[], iv, some .ValueErrorInt⟩) := by
  refine ⟨fun args b count free alloc hn => ?_, fun args iv hn => ?_,
          fun a gid b count free alloc hp hrange => ?_, fun a n iv hp hrange => ?_,
          fun a b count free alloc hp => ?_, fun a iv hp => ?_⟩
  · rw [occupyHandler, if_neg (by simpa using hu), if_pos hn]
  · rw [setIntervalHandler, if_neg (by simpa using hu), if_pos hn]
  · rw [occupyHandler, if_neg (by simpa using hu), if_neg (by simp)]
    simp only [List.headD_cons, hp]
    rw [if_pos hrange]
  · rw [setIntervalHandler, if_neg (by simpa using hu), if_neg (by simp)]
    simp only [List.headD_cons, hp]
    rw [if_pos (by omega)]
  · rw [occupyHandler, if_neg (by simpa using hu), if_neg (by simp)]
    simp only [List.headD_cons, hp]
  · rw [setIntervalHandler, if_neg (by simpa using hu), if_neg (by simp)]
    simp only [List.headD_cons, hp]

/-- Witness for C8's amended statement at concrete inputs: caller 1 on
whitelist [1]; `/occ` with no argument, `/occ 9` on 2 devices,
`/set_interval 0`, `/occ abc`, `/set_interval abc`. -/
theorem command_validation_witness :
    (1 : ℤ) ∈ ([1] : List ℤ) ∧
    occupyHandler [1] 1 [] [] 2 100 (fun _ => true) =
      ⟨["Usage: /occ <gpu_id>"], [], [], none⟩ ∧
    setIntervalHandler [1] 1 [] 5 =
      ⟨["Usage: /rel <gpu_id> to release <gpu_id> or simply /rel to release all"],
       5, none⟩ ∧
    occupyHandler [1] 1 ["9"] [] 2 100 (fun _ => true) =
      ⟨["Invalid GPU ID. Must be between 0 and 1"], [], [], none⟩ ∧
    setIntervalHandler [1] 1 ["0"] 5 =
      ⟨["Interval must be between 1s and 3600s"], 5, none⟩ ∧
    occupyHandler [1] 1 ["abc"] [] 2 100 (fun _ => true) =
      ⟨[], [], [], some .ValueErrorInt⟩ ∧
    setIntervalHandler [1] 1 ["abc"] 5 = ⟨[], 5, some .ValueErrorInt⟩ := by
  obtain ⟨c1, c2, c3, c4, c5, c6⟩ := command_validation [1] 1 (by decide)
  refine ⟨by decide, ?_, ?_, ?_, ?_, ?_, ?_⟩
  · rw [c1 [] [] 2 100 (fun _ => true) (by decide)]; decide
  · rw [c2 [] 5 (by decide)]; decide
  · rw [c3 "9" 9 [] 2 100 (fun _ => true) (by decide) (by decide)]; decide
  · rw [c4 "0" 0 5 (by decide) (by decide)]
  · exact c5 "abc" [] 2 100 (fun _ => true) (by decide)
  · exact c6 "abc" 5 (by decide)

/-- C8 counterexample: `/occ abc` from a whitelisted caller does not yield a
usage message — `int("abc")` raises a `ValueError` that escapes the handler,
refuting "never raises an unhandled exception". -/
theorem command_validation_cex :
    (occupyHandler [1] 1 ["abc"] [] 4 1000 (fun _ => true)).exc ≠ none ∧
    (occupyHandler [1] 1 ["abc"] [] 4 1000 (fun _ => true)).replies = [] := by
  decide

/-- C5 (exhibiting the code bug): on a whitelisted `/occ 0` against a device
with 10 GiB free, an allocator that fails the first attempt is asked exactly
once — for `int(free * 0.95)` bytes — and the handler dies with the
`ValueError` of the malformed `f.1` format specifier instead of retrying with
80% of the target; with an allocator that succeeds at once the handle is
stored but the same `ValueError` replaces the success reply. -/
theorem occupy_backoff_broken :
    (occupyHandler [1] 1 ["0"] [] 1 (10 * 2 ^ 30) (fun _ => false)).attempts =
      [10 * 2 ^ 30 * 95 / 100] ∧
    (occupyHandler [1] 1 ["0"] [] 1 (10 * 2 ^ 30) (fun _ => false)).exc =
      some .ValueErrorFmt ∧
    (occupyHandler [1] 1 ["0"] [] 1 (10 * 2 ^ 30) (fun _ => false)).replies = [] ∧
    (occupyHandler [1] 1 ["0"] [] 1 (10 * 2 ^ 30) (fun _ => false)).buffers = [] ∧
    (occupyHandler [1] 1 ["0"] [] 1 (10 * 2 ^ 30) (fun _ => true)).buffers =
      [(0, 10 * 2 ^ 30 * 95 / 100)] ∧
    (occupyHandler [1] 1 ["0"] [] 1 (10 * 2 ^ 30) (fun _ => true)).replies = [] ∧
    (occupyHandler [1] 1 ["0"] [] 1 (10 * 2 ^ 30) (fun _ => true)).exc =
      some .ValueErrorFmt := by
  decide

/-- C1 (amended): a successful poll cycle broadcasts exactly when the newly
computed state vector differs from the previous one — equal-length vectors
with identical labels at every index cause no broadcast, a differing index or
differing length causes one send attempt per whitelist entry and the new
vector is stored — and on the first cycle the sentinel (`[None] * count`) is
unequal to the computed state of any nonempty device list, forcing a
broadcast (with zero devices both vectors are empty and equal, so no
broadcast occurs: see the counterexample). -/
theorem poll_diff_broadcast (whitelist : List ℤ) (deliver : ℤ → SendOutcome)
    (devs : List DeviceSnapshot) (ts : String) (old : List (Option String)) :
    (old.length = ((queryOnce devs ts).1.map some).length →
     (∀ (i : ℕ) (h : i < old.length)
        (h' : i < ((queryOnce devs ts).1.map some).length),
        old.get ⟨i, h⟩ = ((queryOnce devs ts).1.map some).get ⟨i, h'⟩) →
     (pollCycle whitelist deliver (.ok devs) ts old).broadcast = none) ∧
    ((old.length ≠ ((queryOnce devs ts).1.map some).length ∨
      ∃ (i : ℕ) (h : i < old.length)
        (h' : i < ((queryOnce devs ts).1.map some).length),
        old.get ⟨i, h⟩ ≠ ((queryOnce devs ts).1.map some).get ⟨i, h'⟩) →
     ∃ b, (pollCycle whitelist deliver (.ok devs) ts old).broadcast = some b ∧
       b.attempted = whitelist ∧
       (pollCycle whitelist deliver (.ok devs) ts old).oldStates =
         (queryOnce devs ts).1.map some) ∧
    (devs ≠ [] →
     List.replicate devs.length (none : Option String) ≠
       (queryOnce devs ts).1.map some) := by
  refine ⟨fun hlen hget => ?_, fun hdiff => ?_, fun hne => ?_⟩
  · have heq : old = (queryOnce devs ts).1.map some := List.ext_get hlen hget
    simp only [pollCycle]
    rw [if_neg (fun hcond => hcond heq.symm)]
  · have hmapne : (queryOnce devs ts).1.map some ≠ old := by
      intro heq
      rcases hdiff with hl | ⟨i, h, h', hg⟩
      · exact hl (by rw [heq])
      · subst heq
        exact hg rfl
    simp only [pollCycle]
    rw [if_pos hmapne, broadcastLoop_eq]
    exact ⟨_, rfl, rfl, rfl⟩
  · match devs with
    | [] => exact absurd rfl hne
    | d :: rest =>
      intro h
      rw [queryOnce] at h
      simp only [List.map_cons, List.length_cons, List.replicate] at h
      exact Option.noConfusion (List.cons.inj h).1

/-- Witness for C1 at concrete inputs: one device whose snapshot is repeated
(no broadcast), a shorter previous vector (broadcast to the whole whitelist),
and a nonempty device list against the sentinel. -/
theorem poll_diff_broadcast_witness :
    (pollCycle [3] (fun _ => SendOutcome.ok)
        (.ok [⟨⟨0, 4, 4⟩, []⟩]) "T"
        [some (deviceState ⟨⟨0, 4, 4⟩, []⟩)]).broadcast = none ∧
    (∃ b, (pollCycle [3] (fun _ => SendOutcome.ok)
        (.ok [⟨⟨0, 4, 4⟩, []⟩]) "T" []).broadcast = some b ∧
      b.attempted = [3] ∧
      (pollCycle [3] (fun _ => SendOutcome.ok)
        (.ok [⟨⟨0, 4, 4⟩, []⟩]) "T" []).oldStates =
        (queryOnce [⟨⟨0, 4, 4⟩, []⟩] "T").1.map some) ∧
    List.replicate (List.length [(⟨⟨0, 4, 4⟩, []⟩ : DeviceSnapshot)])
        (none : Option String) ≠
      (queryOnce [⟨⟨0, 4, 4⟩, []⟩] "T").1.map some := by
  obtain ⟨w1, w2, w3⟩ := poll_diff_broadcast [3] (fun _ => SendOutcome.ok)
    [⟨⟨0, 4, 4⟩, []⟩] "T" [some (deviceState ⟨⟨0, 4, 4⟩, []⟩)]
  obtain ⟨u1, u2, u3⟩ := poll_diff_broadcast [3] (fun _ => SendOutcome.ok)
    [⟨⟨0, 4, 4⟩, []⟩] "T" []
  refine ⟨w1 (by rfl) ?_, u2 (Or.inl (by decide)), u3 (by simp)⟩
  intro i h h'
  have hi : i = 0 := by
    simp only [List.length_singleton] at h
    omega
  subst hi
  rfl

/-- C1 counterexample: with zero devices the sentinel previous state
`[None] * 0 = []` equals the computed (empty) state vector, so the first
successful cycle does not broadcast — the claim's "the sentinel ... is
unequal to any computed state, forcing a broadcast" fails for the empty
state. -/
theorem poll_first_cycle_cex :
    List.replicate (List.length ([] : List DeviceSnapshot)) (none : Option String) =
      (queryOnce [] "ts").1.map some ∧
    (pollCycle [7] (fun _ => SendOutcome.ok) (.ok []) "ts"
      (List.replicate (List.length ([] : List DeviceSnapshot))
        (none : Option String))).broadcast = none := by
  exact ⟨rfl, rfl⟩

theorem floor_le_pyRound (q : ℚ) : ⌊q⌋ ≤ pyRound q := by
  rw [pyRound]
  split_ifs <;> omega

theorem pyRound_le_floor_add_one (q : ℚ) : pyRound q ≤ ⌊q⌋ + 1 := by
  rw [pyRound]
  split_ifs <;> omega

theorem pyRound_intCast (n : ℤ) : pyRound (n : ℚ) = n := by
  rw [pyRound, Int.floor_intCast]
  rw [if_pos (by norm_num)]

/-- Banker's rounding is monotone. -/
theorem pyRound_mono {q q' : ℚ} (h : q ≤ q') : pyRound q ≤ pyRound q' := by
  rcases lt_or_le (⌊q⌋ : ℤ) ⌊q'⌋ with hf | hf
  · have h1 := pyRound_le_floor_add_one q
    have h2 := floor_le_pyRound q'
    omega
  · have heq : ⌊q⌋ = ⌊q'⌋ := le_antisymm (Int.floor_mono h) hf
    rw [pyRound, pyRound, ← heq]
    split_ifs <;> first | omega | (exfalso; linarith)

theorem pyRound_nonneg {q : ℚ} (h : 0 ≤ q) : 0 ≤ pyRound q :=
  le_trans (by exact_mod_cast Int.floor_nonneg.mpr h) (floor_le_pyRound q)

/-- The number of `#` characters `pbar` emits is `sep + 1`, unclamped. -/
theorem filledSegments_pbar (current maximum size : ℕ) :
    filledSegments (pbar current maximum size) =
      ((pyRound ((current : ℚ) / (maximum : ℚ) * (size : ℚ))) + 1).toNat := by
  rw [filledSegments]
  rw [show (pbar current maximum size).data =
      "`|".data
        ++ List.replicate ((pyRound ((current : ℚ) / (maximum : ℚ) * (size : ℚ))) + 1).toNat '#'
        ++ List.replicate ((size : ℤ) - ((pyRound ((current : ℚ) / (maximum : ℚ) * (size : ℚ))) + 1)).toNat ' '
        ++ "|`".data from rfl]
  rw [List.count_append, List.count_append, List.count_append,
      List.count_replicate_self, List.count_replicate,
      show List.count '#' "`|".data = 0 from rfl,
      show List.count '#' "|`".data = 0 from rfl,
      if_neg (show ¬((' ' == '#') = true) from by decide)]
  omega

/-- C4 (amended): for `used ≤ total`, `total > 0`, `width > 0`, the bar fills
exactly `round(used / total * width) + 1` segments, with no clamping to
`width`: at least one segment is filled at `used = 0`, `width + 1` segments
(one more than the bar's nominal width) are filled at `used = total`, and the
filled count is monotone non-decreasing in `used`. -/
theorem usage_bar (used total width : ℕ) (h1 : used ≤ total) (h2 : 0 < total)
    (h3 : 0 < width) :
    filledSegments (pbar used total width) =
      ((pyRound ((used : ℚ) / (total : ℚ) * (width : ℚ))) + 1).toNat ∧
    1 ≤ filledSegments (pbar 0 total width) ∧
    filledSegments (pbar total total width) = width + 1 ∧
    (∀ u u' : ℕ, u ≤ u' →
      filledSegments (pbar u total width) ≤ filledSegments (pbar u' total width)) := by
  refine ⟨filledSegments_pbar used total width, ?_, ?_, fun u u' hu => ?_⟩
  · rw [filledSegments_pbar]
    rw [show ((0 : ℕ) : ℚ) / (total : ℚ) * (width : ℚ) = (((0 : ℤ) : ℚ)) by norm_num]
    rw [pyRound_intCast]
    decide
  · rw [filledSegments_pbar]
    rw [show ((total : ℕ) : ℚ) / (total : ℚ) * (width : ℚ) = (((width : ℤ) : ℚ)) by
      rw [div_self (by exact_mod_cast h2.ne')]
      norm_num]
    rw [pyRound_intCast]
    omega
  · rw [filledSegments_pbar, filledSegments_pbar]
    have hq : (u : ℚ) / (total : ℚ) * (width : ℚ) ≤ (u' : ℚ) / (total : ℚ) * (width : ℚ) := by
      gcongr
    have := pyRound_mono hq
    omega

/-- Witness for C4 at concrete input `used = 1, total = 2, width = 4`: three
filled segments, and every clause instantiated. -/
theorem usage_bar_witness :
    (1 : ℕ) ≤ 2 ∧ 0 < (2 : ℕ) ∧ 0 < (4 : ℕ) ∧
    filledSegments (pbar 1 2 4) = 3 ∧
    1 ≤ filledSegments (pbar 0 2 4) ∧
    filledSegments (pbar 2 2 4) = 5 ∧
    filledSegments (pbar 1 2 4) ≤ filledSegments (pbar 2 2 4) := by
  obtain ⟨e1, e2, e3, mono⟩ := usage_bar 1 2 4 (by norm_num) (by norm_num) (by norm_num)
  refine ⟨by norm_num, by norm_num, by norm_num, ?_, e2, e3, mono 1 2 (by norm_num)⟩
  rw [e1, show ((1 : ℕ) : ℚ) / ((2 : ℕ) : ℚ) * ((4 : ℕ) : ℚ) = (((2 : ℤ) : ℚ)) by norm_num,
      pyRound_intCast]
  rfl

/-- C4 counterexample: at `used = total = 1, width = 4` the source fills
`round(1 * 4) + 1 = 5` segments — more than the claimed
`min(width, round(used / total * width) + 1) = 4`, so the claim's clamped
formula (and its "at most width segments at `used = total`") is wrong. -/
theorem usage_bar_cex :
    filledSegments (pbar 1 1 4) = 5 ∧
    min 4 ((pyRound ((1 : ℚ) / 1 * 4) + 1).toNat) = 4 := by
  have h4 : ((1 : ℚ) / 1 * 4) = (((4 : ℤ) : ℚ)) := by norm_num
  constructor
  · rw [filledSegments_pbar]
    rw [show ((1 : ℕ) : ℚ) / ((1 : ℕ) : ℚ) * ((4 : ℕ) : ℚ) = (((4 : ℤ) : ℚ)) by norm_num,
        pyRound_intCast]
    rfl
  · rw [h4, pyRound_intCast]
    rfl
